import Mathlib

/-!
Verification development for the book-catalog scraper (`scraper.py`).

The Python source is shallowly embedded:
  * Python dictionaries become association lists (`Dict`) with
    update-or-append assignment (`dictSet`) and first-occurrence lookup
    (`dictGet`), which agree with Python dict semantics as long as keys
    are unique (an invariant preserved by `dictSet`).
  * BeautifulSoup documents become the inductive `Node` tree.  The two
    bs4 primitives the source uses are embedded directly:
    `find(name, class_=...)` becomes `get_tag` / `matchesFilter`
    (a `None` class filter matches only tags lacking a class attribute;
    a string filter matches one class token exactly or the space-joined
    class string; a compiled pattern is searched in each token and in
    the joined string), and `.text` becomes `innerText`.
  * The regular expressions of the source are embedded as executable
    string scanners with the same matching behaviour on the alphabets
    they are applied to.
  * HTTP fetching is abstracted by a `World` giving the outcome of each
    GET; a raised Python exception is the `some`/`Except.error` case.
  * Python floats are modelled exactly as rationals; every float the
    program constructs comes from decimal literals, where the model is
    faithful up to the usual shortest-repr convention.
-/

/-- A Python runtime exception, as far as this program can raise one. -/
inductive PyErr where
  /-- `requests` transport error or `raise_for_status` on a non-2xx code. -/
  | httpError
  /-- `float()` / `int()` conversion failure. -/
  | valueError
  /-- missing dictionary/attribute key, e.g. `element["class"]`. -/
  | keyError
  /-- sequence index out of range, e.g. `element["class"][1]`. -/
  | indexError
deriving DecidableEq, Repr

/-- A Python value stored in one of the dictionaries of the scraper:
`str`, `int`, `float` (modelled exactly as a rational) or a nested
`dict` (the `additional_info` table). -/
inductive PyVal where
  | s (v : String)
  | i (v : Int)
  | f (v : ℚ)
  | dict (v : List (String × PyVal))

/-- A Python `dict[str, ...]` as an association list in insertion order. -/
abbrev Dict := List (String × PyVal)

/-- Python dictionary assignment `d[k] = v`: replaces the value at the
first occurrence of `k`, else appends the new binding. -/
def dictSet (d : Dict) (k : String) (v : PyVal) : Dict :=
  match d with
  | [] => [(k, v)]
  | (k', v') :: rest => if k' = k then (k, v) :: rest else (k', v') :: dictSet rest k v

/-- Python dictionary lookup `d[k]` (as an `Option`). -/
def dictGet (d : Dict) (k : String) : Option PyVal :=
  match d with
  | [] => none
  | (k', v') :: rest => if k' = k then some v' else dictGet rest k

/-- An HTML node as the bs4 usage of the source sees it: a text node, or an
element with a tag name, an optional class-token list (`none` = no
`class` attribute at all), an optional `href` attribute and children. -/
inductive Node where
  | textNode (s : String)
  | elem (name : String) (classes : Option (List String)) (href : Option String)
      (children : List Node)

mutual

/-- All descendants of a node in document (pre-) order: this is the
order in which the bs4 `find` / `find_all` traverse candidates. -/
def descendants : Node → List Node
  | .textNode _ => []
  | .elem _ _ _ children => descendantsList children

/-- Descendants of a forest: each root followed by its own descendants. -/
def descendantsList : List Node → List Node
  | [] => []
  | c :: rest => c :: descendants c ++ descendantsList rest

end

mutual

/-- bs4 `.text`: the concatenation of every descendant string. -/
def innerText : Node → String
  | .textNode s => s
  | .elem _ _ _ children => innerTextList children

/-- Concatenated text of a forest. -/
def innerTextList : List Node → String
  | [] => ""
  | c :: rest => innerText c ++ innerTextList rest

end

/-- Whether `pat` occurs as a contiguous sublist of `l`. -/
def subListOf (pat : List Char) : List Char → Bool
  | [] => pat.isEmpty
  | c :: rest => pat.isPrefixOf (c :: rest) || subListOf pat rest

/-- Substring containment on strings (the effect of `re.search` for the
patterns of the source whose only regex operators are a leading or
trailing `.*`). -/
def strContains (s pat : String) : Bool :=
  subListOf pat.data s.data

/-- Python `str.strip()`: drops whitespace from both ends. -/
def pyStrip (s : String) : String :=
  String.mk
    (((s.data.dropWhile Char.isWhitespace).reverse.dropWhile
        Char.isWhitespace).reverse)

/-- Python `str.lower()` (on the ASCII letters this program meets). -/
def pyLower (s : String) : String :=
  String.mk (s.data.map Char.toLower)

/-- The `class_` argument `get_tag` passes to bs4 `find`:
`noClass` is `class_=None` (the branch of the source for an empty
`class_name`), `str` an exact class-name string, `regexSub` a compiled
pattern whose `search` succeeds exactly on strings containing `pat`. -/
inductive ClassFilter where
  | noClass
  | str (s : String)
  | regexSub (pat : String)

/-- bs4 attribute matching for the `class` attribute.
A `None` filter matches only tags lacking the attribute.  A string or
pattern filter is tried against each class token, then against the
space-joined class string; a string must be equal, a pattern is
searched (substring containment for the patterns in use). -/
def matchesFilter : ClassFilter → Option (List String) → Bool
  | .noClass, none => true
  | .noClass, some _ => false
  | .str _, none => false
  | .str s, some cs => cs.any (· = s) || String.intercalate " " cs = s
  | .regexSub _, none => false
  | .regexSub p, some cs =>
      cs.any (fun t => strContains t p) || strContains (String.intercalate " " cs) p

/-- Whether a node is an element with the given tag name whose class
attribute satisfies the filter. -/
def nodeMatches (tag_name : String) (cf : ClassFilter) : Node → Bool
  | .textNode _ => false
  | .elem nm cls _ _ => nm = tag_name && matchesFilter cf cls

/-- `get_tag` of the source: `context.find(tag_name, class_=class_name)`
with `class_=None` when `class_name` is falsy; the first matching
descendant in document order, or `None`.  (The trailing
`type(tag) == Tag` test is subsumed: every match is an element.) -/
def get_tag (context : Node) (tag_name : String) (class_name : ClassFilter) :
    Option Node :=
  (descendants context).find? (nodeMatches tag_name class_name)

/-- bs4 `find_all(tag_name)` with no class constraint, as used on
`"tr"` and `"h3"`; text nodes are never returned, so the source's
`type(row) != Tag` guard is subsumed. -/
def findAll (context : Node) (tag_name : String) : List Node :=
  (descendants context).filter (fun n =>
    match n with
    | .textNode _ => false
    | .elem nm _ _ _ => nm = tag_name)

/-- A character matched by the character class of `_number_pattern`,
the source regex `[\d.]+`: a digit or a dot. -/
def isNumChar (c : Char) : Bool :=
  c.isDigit || c = '.'

/-- First match of `_number_pattern` (`[\d.]+`) in a character list:
the leftmost maximal run of digits-or-dots. -/
def firstNumRunAux : List Char → Option (List Char)
  | [] => none
  | c :: rest =>
      if isNumChar c then some (c :: rest.takeWhile isNumChar)
      else firstNumRunAux rest

/-- `re.search(_number_pattern, s)`: the leftmost maximal run of
digits-or-dots in `s`, or `none` when `s` has neither. -/
def firstNumRun (s : String) : Option String :=
  (firstNumRunAux s.data).map (fun l => String.mk l)

/-- Value of a list of decimal digit characters. -/
def digitsToNat (ds : List Char) : Nat :=
  ds.foldl (fun a c => a * 10 + (c.toNat - 48)) 0

/-- Python `int(s)` on a non-empty all-digit string. -/
def pyIntOfString (s : String) : Int :=
  (digitsToNat s.data : Int)

/-- Number of dots in a string. -/
def dotCount (s : String) : Nat :=
  s.data.countP (· = '.')

/-- Whether a string contains at least one decimal digit. -/
def hasDigit (s : String) : Bool :=
  s.data.any Char.isDigit

/-- Python `float(s)` on a string of digits and dots containing a dot:
defined (exactly, as a rational) when `s` has exactly one dot and at
least one digit; any other such string raises `ValueError`. -/
def pyFloatVal (s : String) : ℚ :=
  let before := s.data.takeWhile (fun c => c ≠ '.')
  let after := (s.data.dropWhile (fun c => c ≠ '.')).drop 1
  (digitsToNat before : ℚ) + (digitsToNat after : ℚ) / ((10 : ℚ) ^ after.length)

/-- The tuple `stars_count` of the rating branch of the source. -/
def stars_count : List String :=
  ["zero", "one", "two", "three", "four", "five"]

/-- `_set_dict_value` of the source.  The result is the dictionary
after the call together with the exception it raised, if any (`data`
is mutated only by the final assignment of a branch, so on every
raising path the dictionary is returned unchanged).  The guard
`if not element` of the source is a pure `None` test: bs4 `Tag`
defines `__bool__` as constantly true. -/
def _set_dict_value (data : Dict) (key : String) (element : Option Node)
    (data_type : String) : Dict × Option PyErr :=
  match element with
  | none => (data, none)
  | some el =>
    if data_type ∉ ["text", "number", "rating"] then (data, none)
    else if data_type = "text" then
      (dictSet data key (.s (pyStrip (innerText el))), none)
    else if data_type = "number" then
      match firstNumRun (innerText el) with
      | none => (data, none)
      | some m =>
          if m.data.contains '.' then
            if dotCount m = 1 && hasDigit m then
              (dictSet data key (.f (pyFloatVal m)), none)
            else (data, some .valueError)
          else (dictSet data key (.i (pyIntOfString m)), none)
    else
      match el with
      | .textNode _ => (data, some .keyError)
      | .elem _ classes _ _ =>
        match classes with
        | none => (data, some .keyError)
        | some cs =>
          match cs.get? 1 with
          | none => (data, some .indexError)
          | some tok =>
              let rating := pyLower tok
              match stars_count.indexOf? rating with
              | none => (data, none)
              | some idx => (dictSet data key (.i (idx : Int)), none)

/-- `get_rows` of the source: scans every `tr` descendant of `parent`;
for each row with a class-less `th` (the `if key:` of the source is a
`None` test, bs4 tags being always truthy), calls `_set_dict_value` in
text mode with the (untrimmed) `th` text as key and the class-less
`td` of the same row (possibly absent) as element.  Exceptions would
propagate, so the scan is threaded through the error component (text
mode in fact never raises). -/
def get_rowsAux (rows : List Node) (acc : Dict) : Dict × Option PyErr :=
  match rows with
  | [] => (acc, none)
  | row :: rest =>
    match get_tag row "th" .noClass with
    | none => get_rowsAux rest acc
    | some key =>
      match _set_dict_value acc (innerText key) (get_tag row "td" .noClass)
          "text" with
      | (acc', none) => get_rowsAux rest acc'
      | (acc', some e) => (acc', some e)

/-- `get_rows` of the source (see `get_rowsAux`). -/
def get_rows (parent : Node) : Dict × Option PyErr :=
  get_rowsAux (findAll parent "tr") []

/-- The initial all-defaults book dictionary of `get_book_data`. -/
def default_book_data : Dict :=
  [("title", .s ""), ("price", .i 0), ("rating", .i 0), ("available", .i 0),
   ("description", .s ""), ("additional_info", .dict [])]

/-- The compiled pattern `_rating_pattern` (`star-rating .*`) used as a
class filter: its `search` succeeds exactly on strings containing
`"star-rating "`. -/
def _rating_pattern : ClassFilter := .regexSub "star-rating "

/-- The compiled pattern `_main_data_pattern` (`.* product_main`) used
as a class filter: its `search` succeeds exactly on strings containing
`" product_main"`. -/
def _main_data_pattern : ClassFilter := .regexSub " product_main"

/-- Sequencing helper for consecutive `_set_dict_value` calls: once an
exception has been raised, it propagates past the remaining calls. -/
def seqSet (st : Dict × Option PyErr) (key : String) (element : Option Node)
    (data_type : String) : Dict × Option PyErr :=
  match st with
  | (d, some e) => (d, some e)
  | (d, none) => _set_dict_value d key element data_type

/-- `get_book_data` of the source.  The fetch outcome of the book URL
is the argument: `requests.get` + `raise_for_status` are not guarded by
any try/except, so a transport or status failure propagates as an
`Except.error` (as does any exception raised while extracting). -/
def get_book_data (fetch : Except PyErr Node) : Except PyErr Dict :=
  let data := default_book_data
  match fetch with
  | .error e => .error e
  | .ok soup =>
    match get_tag soup "article" (.str "product_page") with
    | none => .ok data
    | some data_root =>
      match get_tag data_root "div" _main_data_pattern with
      | none => .ok data
      | some main_data =>
        let title_elem := get_tag main_data "h1" .noClass
        let description_elem := get_tag data_root "p" .noClass
        let rating_elem := get_tag main_data "p" _rating_pattern
        let price_elem := get_tag main_data "p" (.str "price_color")
        let available_elem := get_tag main_data "p" (.str "instock availability")
        let st := seqSet (seqSet (seqSet (seqSet (seqSet (data, none)
          "title" title_elem "text")
          "description" description_elem "text")
          "price" price_elem "number")
          "available" available_elem "number")
          "rating" rating_elem "rating"
        match st with
        | (_, some e) => .error e
        | (d, none) =>
          match get_tag data_root "table" (.str "table table-striped") with
          | none => .ok d
          | some table =>
            match get_rows table with
            | (_, some e) => .error e
            | (rows, none) => .ok (dictSet d "additional_info" (.dict rows))

/-- `_root_url` of the source. -/
def _root_url : String := "https://books.toscrape.com/catalogue/"

/-- The outcome of every HTTP GET the program can make: catalog pages
by number, book pages by absolute URL.  `Except.error` is a transport
failure or a non-2xx status (which `raise_for_status` turns into an
exception). -/
structure World where
  catalog : Nat → Except PyErr Node
  item : String → Except PyErr Node

/-- `_get_page_soup` of the source: fetches catalog page `n` and raises
on failure. -/
def _get_page_soup (w : World) (page_number : Nat) : Except PyErr Node :=
  w.catalog page_number

/-- First match of the pattern `of (\d+)` in a character list: scans
for `"of "` followed by at least one digit and returns the value of
the maximal digit run (capture group 1). -/
def searchOfNumAux : List Char → Option Nat
  | [] => none
  | c :: rest =>
      match c, rest with
      | 'o', 'f' :: ' ' :: tail =>
          let ds := tail.takeWhile Char.isDigit
          if ds.isEmpty then searchOfNumAux rest else some (digitsToNat ds)
      | _, _ => searchOfNumAux rest

/-- `re.search("of (\d+)", s)` followed by `int(match.group(1))`. -/
def searchOfNum (s : String) : Option Nat :=
  searchOfNumAux s.data

/-- `_get_pages_count` of the source: 0 when the page-1 fetch raises,
when no `li` with class `current` exists, or when its text has no
`of <digits>` occurrence; otherwise the captured integer. -/
def _get_pages_count (w : World) : Nat :=
  match _get_page_soup w 1 with
  | .error _ => 0
  | .ok soup =>
    match get_tag soup "li" (.str "current") with
    | none => 0
    | some counter_elem =>
      match searchOfNum (innerText counter_elem) with
      | none => 0
      | some n => n

/-- The item loop of `_parse_page`: for each `h3` heading, looks up its
class-less `a`; a missing anchor skips the item (the `if not link:` of
the source is a `None` test, bs4 tags being always truthy);
`link["href"]` raises `KeyError` when the attribute is absent
(aborting the loop); a falsy (empty) href skips the item; otherwise
`get_book_data` runs on the resolved URL and its record is appended —
an exception from it aborts the loop, keeping the records appended so
far. -/
def parseItems (w : World) (headings : List Node) (acc : List Dict) :
    List Dict × Option PyErr :=
  match headings with
  | [] => (acc, none)
  | heading :: rest =>
    match get_tag heading "a" .noClass with
    | none => parseItems w rest acc
    | some link =>
      match link with
      | .textNode _ => (acc, some .keyError)
      | .elem _ _ none _ => (acc, some .keyError)
      | .elem _ _ (some href) _ =>
          if href = "" then parseItems w rest acc
          else
            match get_book_data (w.item (_root_url ++ href)) with
            | .error e => (acc, some e)
            | .ok book => parseItems w rest (acc ++ [book])

/-- `_parse_page` of the source: the catalog-page fetch is guarded by
try/except (failure contributes nothing); a missing `ol.row` container
contributes nothing; otherwise the item loop runs.  The second
component is the exception escaping the call, if any — inside a worker
thread it only kills that thread. -/
def _parse_page (w : World) (page_number : Nat) (books_data : List Dict) :
    List Dict × Option PyErr :=
  match _get_page_soup w page_number with
  | .error _ => (books_data, none)
  | .ok soup =>
    match get_tag soup "ol" (.str "row") with
    | none => (books_data, none)
    | some books_container =>
        parseItems w (findAll books_container "h3") books_data

/-- `scrape_books` of the source, scheduling abstracted: the batched
worker threads only interleave the order of appends to the shared
list; per page, the records appended are those of `_parse_page`, and
an exception escaping a worker dies with its thread.  The model runs
the pages in order. -/
def scrape_books (w : World) : List Dict :=
  let pages_count := _get_pages_count w
  (List.range' 1 pages_count).foldl (fun acc n => (_parse_page w n acc).1) []

/-- A run of `n` spaces. -/
def spaces (n : Nat) : String :=
  String.mk (List.replicate n ' ')

/-- Lower-case hexadecimal digit. -/
def hexDigit (n : Nat) : Char :=
  if n < 10 then Char.ofNat (48 + n) else Char.ofNat (87 + n)

/-- Four-digit lower-case hexadecimal rendering (for `\uXXXX`). -/
def hex4 (n : Nat) : String :=
  String.mk [hexDigit (n / 4096 % 16), hexDigit (n / 256 % 16),
    hexDigit (n / 16 % 16), hexDigit (n % 16)]

/-- `json.dumps` escaping of one character with the default
`ensure_ascii=True`: short escapes for the usual controls, `\uXXXX`
for other controls and for every non-ASCII character (code points
beyond 0xFFFF would use surrogate pairs; none arise here). -/
def jsonEscapeChar (c : Char) : String :=
  if c = Char.ofNat 34 then "\\\""
  else if c = '\\' then "\\\\"
  else if c = '\n' then "\\n"
  else if c = '\r' then "\\r"
  else if c = '\t' then "\\t"
  else if c = Char.ofNat 8 then "\\b"
  else if c = Char.ofNat 12 then "\\f"
  else if c.toNat < 32 || 126 < c.toNat then "\\u" ++ hex4 c.toNat
  else String.singleton c

/-- `json.dumps` rendering of a string. -/
def dumpStr (v : String) : String :=
  "\"" ++ String.join (v.data.map jsonEscapeChar) ++ "\""

/-- Smallest exponent `k` (searched up to 39) with `d ∣ 10 ^ k`. -/
def pow10Exp (d : Nat) : Option Nat :=
  (List.range 40).find? (fun k => 10 ^ k % d = 0)

/-- Decimal rendering of `scaled / 10 ^ k` with the point placed `k`
digits from the right and trailing fractional zeros dropped (at least
one fractional digit is kept, as Python float repr does). -/
def decimalOfScaled (scaled : Nat) (k : Nat) : String :=
  let s := toString scaled
  let s := if s.length ≤ k then String.mk (List.replicate (k + 1 - s.length) '0') ++ s else s
  let ip := s.take (s.length - k)
  let fp := String.mk ((s.drop (s.length - k)).data.reverse.dropWhile (· = '0')).reverse
  ip ++ "." ++ (if fp = "" then "0" else fp)

/-- Python `repr` of a float, on the floats this program builds: every
one denotes a short decimal (a rational whose denominator divides a
power of ten), where the shortest round-tripping representation is
that decimal itself.  Negative or non-decimal rationals never occur;
the fallbacks are dead code. -/
def floatRepr (q : ℚ) : String :=
  if q.den = 1 then toString q.num ++ ".0"
  else
    match pow10Exp q.den with
    | some k => decimalOfScaled (q.num.toNat * ((10 ^ k) / q.den)) k
    | none => toString q.num ++ "/" ++ toString q.den

mutual

/-- `json.dumps(v, indent=4)` rendering of one value placed at nesting
level `lvl`. -/
def dumpVal (lvl : Nat) : PyVal → String
  | .s v => dumpStr v
  | .i v => toString v
  | .f v => floatRepr v
  | .dict d => dumpObj lvl d
termination_by v => (sizeOf v, 0)

/-- `json.dumps(indent=4)` rendering of an object whose opening brace
sits at nesting level `lvl`. -/
def dumpObj (lvl : Nat) (d : List (String × PyVal)) : String :=
  if d.isEmpty then "\x7b\x7d"
  else "\x7b\n" ++ dumpObjItems (lvl + 1) d ++ "\n" ++ spaces (4 * lvl) ++ "\x7d"
termination_by (sizeOf d, 1)

/-- The `"key": value` lines of an object, indented at level `lvl` and
separated by `,\n`. -/
def dumpObjItems (lvl : Nat) : List (String × PyVal) → String
  | [] => ""
  | [(k, v)] => spaces (4 * lvl) ++ dumpStr k ++ ": " ++ dumpVal lvl v
  | (k, v) :: rest =>
      spaces (4 * lvl) ++ dumpStr k ++ ": " ++ dumpVal lvl v ++ ",\n" ++
        dumpObjItems lvl rest
termination_by l => (sizeOf l, 0)

end

/-- The element lines of the top-level JSON array (each element is one
book dictionary), indented at level `lvl`. -/
def dumpArrItems (lvl : Nat) : List Dict → String
  | [] => ""
  | [d] => spaces (4 * lvl) ++ dumpObj lvl d
  | d :: rest => spaces (4 * lvl) ++ dumpObj lvl d ++ ",\n" ++ dumpArrItems lvl rest

/-- `json.dumps(books_data, indent=4)`: the empty list renders as the
bare array literal, a non-empty one spreads over indented lines. -/
def json_dumps_books (books_data : List Dict) : String :=
  if books_data.isEmpty then "[]"
  else "[\n" ++ dumpArrItems 1 books_data ++ "\n]"

/-- The persistence step of `scrape_books` when `is_save` is true:
`current_dir` is `os.path.dirname(os.path.abspath(__file__))` (the
directory holding the program), the target path is
`os.path.join(current_dir, "books_data.txt")`, and the serialized
crawl result is the content written. -/
def save_books_file (current_dir : String) (books_data : List Dict) :
    String × String :=
  (current_dir ++ "/books_data.txt", json_dumps_books books_data)

/-- Opening a file with mode `"w"` truncates it: the content after the
write is the new content, whatever was stored before. -/
def write_mode_w (_previous new_content : String) : String :=
  new_content

/-- The (key, value) pair a table row contributes in `get_rows`, if
any: present exactly when the row has a class-less `th` and a
class-less `td`, whatever their contents (specification companion to
`get_rowsAux`). -/
def rowEntry (row : Node) : Option (String × PyVal) :=
  match get_tag row "th" .noClass with
  | none => none
  | some key =>
      match get_tag row "td" .noClass with
      | none => none
      | some value =>
          some (innerText key, PyVal.s (pyStrip (innerText value)))

/-- The row contributions of a whole table, in row order. -/
def get_rows_entries (parent : Node) : List (String × PyVal) :=
  (findAll parent "tr").filterMap rowEntry

theorem dictGet_dictSet_self (d : Dict) (k : String) (v : PyVal) :
    dictGet (dictSet d k v) k = some v := by
  induction d with
  | nil => simp [dictSet, dictGet]
  | cons hd tl ih =>
      obtain ⟨k', v'⟩ := hd
      by_cases h : k' = k
      · subst h; simp [dictSet, dictGet]
      · simp [dictSet, dictGet, h, ih]

theorem dictGet_dictSet_ne (d : Dict) (k k' : String) (v : PyVal) (h : k' ≠ k) :
    dictGet (dictSet d k v) k' = dictGet d k' := by
  induction d with
  | nil => simp [dictSet, dictGet, Ne.symm h]
  | cons hd tl ih =>
      obtain ⟨k'', v''⟩ := hd
      by_cases hk : k'' = k
      · subst hk
        simp [dictSet, dictGet, Ne.symm h]
      · simp only [dictSet, if_neg hk, dictGet]
        by_cases hk' : k'' = k' <;> simp [hk', ih]

theorem keys_dictSet (d : Dict) (k : String) (v : PyVal) :
    (dictSet d k v).map Prod.fst =
      if k ∈ d.map Prod.fst then d.map Prod.fst else d.map Prod.fst ++ [k] := by
  induction d with
  | nil => simp [dictSet]
  | cons hd tl ih =>
      obtain ⟨k', v'⟩ := hd
      by_cases h : k' = k
      · subst h; simp [dictSet]
      · by_cases hmem : k ∈ tl.map Prod.fst <;>
          simp [dictSet, h, ih, hmem, Ne.symm h]

theorem nodup_keys_dictSet (d : Dict) (k : String) (v : PyVal)
    (h : (d.map Prod.fst).Nodup) : ((dictSet d k v).map Prod.fst).Nodup := by
  rw [keys_dictSet]
  by_cases hk : k ∈ d.map Prod.fst
  · simpa [hk]
  · simp [hk, List.nodup_append, h]

theorem set_dict_value_shape (d : Dict) (k : String) (el : Option Node)
    (dt : String) :
    (∃ v, _set_dict_value d k el dt = (dictSet d k v, none)) ∨
      (_set_dict_value d k el dt).1 = d := by
  rcases el with _ | e
  · right; rfl
  · simp only [_set_dict_value]
    repeat' split
    all_goals first
      | (right; rfl)
      | (left; exact ⟨_, rfl⟩)

theorem set_dict_value_frame (d : Dict) (k : String) (el : Option Node)
    (dt : String) (k' : String) (h : k' ≠ k) :
    dictGet ((_set_dict_value d k el dt).1) k' = dictGet d k' := by
  rcases set_dict_value_shape d k el dt with ⟨v, hv⟩ | hd
  · rw [hv]; exact dictGet_dictSet_ne d k k' v h
  · rw [hd]

theorem keys_set_dict_value (d : Dict) (k : String) (el : Option Node)
    (dt : String) (h : k ∈ d.map Prod.fst) :
    ((_set_dict_value d k el dt).1).map Prod.fst = d.map Prod.fst := by
  rcases set_dict_value_shape d k el dt with ⟨v, hv⟩ | hd
  · rw [hv]; rw [keys_dictSet]; simp [h]
  · rw [hd]

theorem seqSet_frame (st : Dict × Option PyErr) (k : String) (el : Option Node)
    (dt : String) (k' : String) (h : k' ≠ k) :
    dictGet ((seqSet st k el dt).1) k' = dictGet st.1 k' := by
  obtain ⟨d, e⟩ := st
  cases e with
  | none => exact set_dict_value_frame d k el dt k' h
  | some e => rfl

theorem keys_seqSet (st : Dict × Option PyErr) (k : String) (el : Option Node)
    (dt : String) (h : k ∈ st.1.map Prod.fst) :
    ((seqSet st k el dt).1).map Prod.fst = st.1.map Prod.fst := by
  obtain ⟨d, e⟩ := st
  cases e with
  | none => exact keys_set_dict_value d k el dt h
  | some e => rfl

theorem set_dict_value_text (d : Dict) (k : String) (el : Option Node) :
    _set_dict_value d k el "text" =
      ((match el with
        | none => d
        | some e => dictSet d k (.s (pyStrip (innerText e)))),
       none) := by
  rcases el with _ | e <;> rfl

theorem get_rowsAux_eq (rows : List Node) (acc : Dict) :
    get_rowsAux rows acc =
      ((rows.filterMap rowEntry).foldl (fun d p => dictSet d p.1 p.2) acc,
       none) := by
  induction rows generalizing acc with
  | nil => rfl
  | cons row rest ih =>
      simp only [get_rowsAux, List.filterMap_cons]
      cases hth : get_tag row "th" ClassFilter.noClass with
      | none => simp [rowEntry, hth, ih]
      | some key =>
          cases htd : get_tag row "td" ClassFilter.noClass with
          | none => simp [rowEntry, hth, htd, set_dict_value_text, ih]
          | some value => simp [rowEntry, hth, htd, set_dict_value_text, ih]

theorem dictGet_foldl_dictSet (ps : List (String × PyVal)) (acc : Dict)
    (K : String) :
    dictGet (ps.foldl (fun d p => dictSet d p.1 p.2) acc) K =
      (match ps.reverse.find? (fun p => p.1 == K) with
       | some p => some p.2
       | none => dictGet acc K) := by
  induction ps generalizing acc with
  | nil => rfl
  | cons p rest ih =>
      simp only [List.foldl_cons, List.reverse_cons]
      rw [ih, List.find?_append]
      cases hf : rest.reverse.find? (fun q => q.1 == K) with
      | some q => simp [Option.or]
      | none =>
          simp only [Option.or]
          by_cases hK : p.1 = K
          · simp [List.find?_cons, hK, dictGet_dictSet_self]
          · simp [List.find?_cons, hK, dictGet_dictSet_ne _ _ _ _ (Ne.symm hK)]

theorem nodup_keys_foldl_dictSet (ps : List (String × PyVal)) (acc : Dict)
    (h : (acc.map Prod.fst).Nodup) :
    ((ps.foldl (fun d p => dictSet d p.1 p.2) acc).map Prod.fst).Nodup := by
  induction ps generalizing acc with
  | nil => exact h
  | cons p rest ih =>
      exact ih (dictSet acc p.1 p.2) (nodup_keys_dictSet acc p.1 p.2 h)

theorem indexOf?_eq_none_iff_notMem {l : List String} {a : String} :
    l.indexOf? a = none ↔ a ∉ l := by
  simp only [List.indexOf?, List.findIdx?_eq_none_iff, beq_eq_false_iff_ne]
  exact ⟨fun h ha => h a ha rfl, fun h x hx e => h (e ▸ hx)⟩

theorem indexOf?_lt_length {l : List String} {a : String} {i : Nat}
    (h : l.indexOf? a = some i) : i < l.length := by
  rw [List.indexOf?, List.findIdx?_eq_some_iff_findIdx_eq] at h
  exact h.1

/-- C9: every call `_set_dict_value(data, key, element, data_type)`
modifies at most the entry at `key` — each other key keeps its value —
and when the element is absent, or the data type is none of `text`,
`number`, `rating`, the dictionary comes back entirely unchanged (and
no exception is raised). -/
theorem C9_set_dict_value_frame (data : Dict) (key : String)
    (element : Option Node) (data_type : String) :
    (∀ k', k' ≠ key →
        dictGet ((_set_dict_value data key element data_type).1) k' =
          dictGet data k') ∧
    (element = none →
        _set_dict_value data key element data_type = (data, none)) ∧
    (data_type ∉ ["text", "number", "rating"] →
        _set_dict_value data key element data_type = (data, none)) := by
  refine ⟨fun k' h => set_dict_value_frame data key element data_type k' h, ?_, ?_⟩
  · rintro rfl; rfl
  · intro h
    rcases element with _ | e
    · rfl
    · simp [_set_dict_value, h]

/-- Witness for C9 at concrete inputs: a frame lookup, the absent
element case, and an unknown data type. -/
theorem C9_set_dict_value_frame_witness :
    dictGet ((_set_dict_value default_book_data "price" none "number").1)
        "title" = dictGet default_book_data "title" ∧
    _set_dict_value default_book_data "price" none "number" =
      (default_book_data, none) ∧
    _set_dict_value default_book_data "price" (some (Node.textNode "x"))
        "bogus" = (default_book_data, none) :=
  ⟨(C9_set_dict_value_frame default_book_data "price" none "number").1
      "title" (by decide),
   (C9_set_dict_value_frame default_book_data "price" none "number").2.1 rfl,
   (C9_set_dict_value_frame default_book_data "price"
      (some (Node.textNode "x")) "bogus").2.2 (by decide)⟩

/-- C10: the mapping `get_rows` builds always has unique keys, and the
value stored under any key is the one contributed by the last table
row carrying that key (later rows overwrite earlier ones). -/
theorem C10_get_rows_last_wins (parent : Node) (K : String) :
    ((get_rows parent).1.map Prod.fst).Nodup ∧
    dictGet (get_rows parent).1 K =
      ((get_rows_entries parent).reverse.find? (fun p => p.1 == K)).map
        Prod.snd := by
  have h := get_rowsAux_eq (findAll parent "tr") []
  constructor
  · rw [get_rows, h]
    exact nodup_keys_foldl_dictSet _ _ (by simp)
  · rw [get_rows, h]
    simp only [get_rows_entries]
    rw [dictGet_foldl_dictSet]
    cases hf : ((findAll parent "tr").filterMap rowEntry).reverse.find?
        (fun p => p.1 == K) <;> simp [hf, dictGet]

/-- Counterexample to C2: on a node whose text is `".."`, the claim
asks for "absent" (no write, no failure, since there is no run of
digits with at most one decimal point), but `_number_pattern` is
`[\d.]+`, which matches the run `".."`; the match contains a dot, so
the code calls `float("..")`, which raises `ValueError` instead of
leaving the extraction absent. -/
theorem C2_counterexample :
    _set_dict_value [] "price" (some (Node.elem "p" none none
        [Node.textNode ".."])) "number" = ([], some PyErr.valueError) ∧
    (some PyErr.valueError ≠ (none : Option PyErr)) :=
  ⟨rfl, by simp⟩

/-- C2 amended: `numeric` decoding searches the node text for the first
contiguous run of digits-or-dots.  No run: the dictionary is unchanged
and nothing is raised.  A run without a dot: the integer it denotes is
stored.  A run with exactly one dot and at least one digit: the
(exact) decimal value is stored as a float.  Any other run (several
dots, or dots only) raises `ValueError` and stores nothing. -/
theorem C2_number_mode (d : Dict) (k : String) (el : Node) :
    (firstNumRun (innerText el) = none →
        _set_dict_value d k (some el) "number" = (d, none)) ∧
    (∀ m, firstNumRun (innerText el) = some m →
      (m.data.contains '.' = false →
          _set_dict_value d k (some el) "number" =
            (dictSet d k (.i (pyIntOfString m)), none)) ∧
      (m.data.contains '.' = true → dotCount m = 1 → hasDigit m = true →
          _set_dict_value d k (some el) "number" =
            (dictSet d k (.f (pyFloatVal m)), none)) ∧
      (m.data.contains '.' = true → ¬(dotCount m = 1 ∧ hasDigit m = true) →
          _set_dict_value d k (some el) "number" =
            (d, some PyErr.valueError))) := by
  constructor
  · intro hm
    simp [_set_dict_value, hm]
  · intro m hm
    refine ⟨fun hdot => ?_, fun hdot h1 h2 => ?_, fun hdot hbad => ?_⟩
    · have hd : '.' ∉ m.data := by simpa using hdot
      simp [_set_dict_value, hm, hd]
    · have hd : '.' ∈ m.data := by simpa using hdot
      simp [_set_dict_value, hm, hd, h1, h2]
    · have hd : '.' ∈ m.data := by simpa using hdot
      simp only [_set_dict_value]
      rw [hm]
      simp [hd, hbad]

/-- The price node of the concrete scenario in the spec. -/
def priceNodeEx : Node :=
  .elem "p" (some ["price_color"]) none [.textNode "£51.77"]

/-- The availability node of the concrete scenario in the spec. -/
def availNodeEx : Node :=
  .elem "p" (some ["instock", "availability"]) none
    [.textNode "In stock (22 available)"]

/-- Witness for C2 on the concrete scenarios of the spec: a price text with a
decimal point yields the float it denotes (exactly 51.77), an
availability text with a bare integer yields that integer. -/
theorem C2_number_mode_witness :
    _set_dict_value [] "price" (some priceNodeEx) "number" =
      (dictSet [] "price" (.f (pyFloatVal "51.77")), none) ∧
    pyFloatVal "51.77" = 5177 / 100 ∧
    _set_dict_value [] "available" (some availNodeEx) "number" =
      (dictSet [] "available" (.i (pyIntOfString "22")), none) ∧
    pyIntOfString "22" = 22 := by
  refine ⟨((C2_number_mode [] "price" priceNodeEx).2 "51.77"
      rfl).2.1 rfl rfl rfl, ?_, ((C2_number_mode [] "available"
      availNodeEx).2 "22" rfl).1 rfl, rfl⟩
  have h : pyFloatVal "51.77" =
      ((digitsToNat ['5', '1'] : ℚ) +
        (digitsToNat ['7', '7'] : ℚ) / (10 : ℚ) ^ 2) := rfl
  have h1 : digitsToNat ['5', '1'] = 51 := rfl
  have h2 : digitsToNat ['7', '7'] = 77 := rfl
  rw [h, h1, h2]
  norm_num

/-- C3: rating decoding reads the class token list (regardless of the
children of the node); when the second token exists and its
lower-casing is one of the six number words, the ordinal index of the
word (0 to 5) is stored; when the second token is any other word
nothing is written — the extraction is absent — and on the default
record the `rating` entry stays 0. -/
theorem C3_rating_mode (d : Dict) (k : String) (nm : String)
    (cs : List String) (hv : Option String) (ch : List Node)
    (tok : String) (htok : cs[1]? = some tok) :
    (∀ idx, stars_count.indexOf? (pyLower tok) = some idx →
        _set_dict_value d k (some (Node.elem nm (some cs) hv ch)) "rating" =
          (dictSet d k (.i (idx : Int)), none) ∧ idx ≤ 5) ∧
    (pyLower tok ∉ stars_count →
        _set_dict_value d k (some (Node.elem nm (some cs) hv ch)) "rating" =
          (d, none)) ∧
    (pyLower tok ∉ stars_count →
        dictGet ((_set_dict_value default_book_data "rating"
            (some (Node.elem nm (some cs) hv ch)) "rating").1) "rating" =
          some (.i 0)) := by
  refine ⟨fun idx hidx => ⟨?_, ?_⟩, fun hnot => ?_, fun hnot => ?_⟩
  · simp [_set_dict_value, htok, hidx]
  · have hlt := indexOf?_lt_length (l := stars_count) hidx
    simp [stars_count] at hlt
    omega
  · have hn : stars_count.indexOf? (pyLower tok) = none :=
      indexOf?_eq_none_iff_notMem.mpr hnot
    simp [_set_dict_value, htok, hn]
  · have hn : stars_count.indexOf? (pyLower tok) = none :=
      indexOf?_eq_none_iff_notMem.mpr hnot
    have h : _set_dict_value default_book_data "rating"
        (some (Node.elem nm (some cs) hv ch)) "rating" =
          (default_book_data, none) := by
      simp [_set_dict_value, htok, hn]
    rw [h]
    rfl

/-- A rating node with class `star-rating Three` (spec scenario); it
is deliberately childless: the rating branch reads only the class
attribute. -/
def ratingNodeThree : Node :=
  .elem "p" (some ["star-rating", "Three"]) none []

/-- A childless rating node with an unknown second class token. -/
def ratingNodeSix : Node :=
  .elem "p" (some ["star-rating", "Six"]) none []

/-- Witness for C3: `star-rating Three` stores 3; `star-rating Six`
stores nothing and on the default record the rating stays 0. -/
theorem C3_rating_mode_witness :
    _set_dict_value [] "rating" (some ratingNodeThree) "rating" =
      (dictSet [] "rating" (.i 3), none) ∧
    _set_dict_value default_book_data "rating" (some ratingNodeSix)
        "rating" = (default_book_data, none) ∧
    dictGet ((_set_dict_value default_book_data "rating"
        (some ratingNodeSix) "rating").1) "rating" = some (.i 0) := by
  refine ⟨?_, ?_, ?_⟩
  · have h := ((C3_rating_mode [] "rating" "p" ["star-rating", "Three"]
        none [] "Three" rfl).1 3 rfl).1
    simpa using h
  · exact (C3_rating_mode default_book_data "rating" "p"
      ["star-rating", "Six"] none [] "Six" rfl).2.1 (by decide)
  · exact (C3_rating_mode default_book_data "rating" "p"
      ["star-rating", "Six"] none [] "Six" rfl).2.2 (by decide)

/-- C4: `_get_pages_count` returns 0 when the page-1 fetch fails, when
the `li.current` indicator is absent, and when its text contains no
`of <digits>`; otherwise it returns the captured integer — and on the
text `Page 1 of 50` the capture is 50. -/
theorem C4_get_pages_count (w : World) :
    (∀ e, w.catalog 1 = .error e → _get_pages_count w = 0) ∧
    (∀ soup, w.catalog 1 = .ok soup →
        get_tag soup "li" (.str "current") = none →
        _get_pages_count w = 0) ∧
    (∀ soup el, w.catalog 1 = .ok soup →
        get_tag soup "li" (.str "current") = some el →
        searchOfNum (innerText el) = none → _get_pages_count w = 0) ∧
    (∀ soup el n, w.catalog 1 = .ok soup →
        get_tag soup "li" (.str "current") = some el →
        searchOfNum (innerText el) = some n → _get_pages_count w = n) ∧
    searchOfNum "Page 1 of 50" = some 50 := by
  refine ⟨fun e he => ?_, fun soup hs hli => ?_, fun soup el hs hli hn => ?_,
    fun soup el n hs hli hn => ?_, rfl⟩
  · simp [_get_pages_count, _get_page_soup, he]
  · simp [_get_pages_count, _get_page_soup, hs, hli]
  · simp [_get_pages_count, _get_page_soup, hs, hli, hn]
  · simp [_get_pages_count, _get_page_soup, hs, hli, hn]

/-- The pagination indicator of the concrete scenario in the spec. -/
def liCurrent50 : Node :=
  .elem "li" (some ["current"]) none [.textNode "Page 1 of 50"]

/-- A catalog first page carrying the indicator. -/
def catalogDoc50 : Node := .elem "html" none none [liCurrent50]

/-- A world whose catalog page 1 carries `Page 1 of 50`. -/
def w50 : World := ⟨fun _ => .ok catalogDoc50, fun _ => .error .httpError⟩

/-- A world where every fetch fails. -/
def wFail : World := ⟨fun _ => .error .httpError, fun _ => .error .httpError⟩

/-- Witness for C4: page count 50 on the scenario world, 0 when the
first-page fetch fails. -/
theorem C4_get_pages_count_witness :
    _get_pages_count w50 = 50 ∧ _get_pages_count wFail = 0 :=
  ⟨(C4_get_pages_count w50).2.2.2.1 catalogDoc50 liCurrent50 50 rfl rfl rfl,
   (C4_get_pages_count wFail).1 .httpError rfl⟩

/-- C8: with persistence requested and an empty crawl result, the run
writes exactly the array literal to `books_data.txt` next to the
program, replacing any previous content. -/
theorem C8_save_empty (w : World) (current_dir previous : String)
    (h : scrape_books w = []) :
    save_books_file current_dir (scrape_books w) =
      (current_dir ++ "/books_data.txt", "[]") ∧
    write_mode_w previous (json_dumps_books (scrape_books w)) = "[]" := by
  rw [h]
  exact ⟨rfl, rfl⟩

/-- Witness for C8 on a world whose every fetch fails (so the crawl
result is empty). -/
theorem C8_save_empty_witness :
    save_books_file "/app" (scrape_books wFail) =
      ("/app" ++ "/books_data.txt", "[]") ∧
    write_mode_w "old content" (json_dumps_books (scrape_books wFail)) =
      "[]" :=
  C8_save_empty wFail "/app" "old content" rfl

theorem keys_seqSet_eq {st : Dict × Option PyErr} {L : List String}
    (k : String) (el : Option Node) (dt : String)
    (h : st.1.map Prod.fst = L) (hk : k ∈ L) :
    ((seqSet st k el dt).1).map Prod.fst = L := by
  rw [keys_seqSet st k el dt (by rw [h]; exact hk), h]

/-- The five field-extraction calls of `get_book_data` keep the key
set of the record: each writes one of the six pre-populated keys. -/
theorem keys_field_chain (te de pe ae re0 : Option Node) :
    ((seqSet (seqSet (seqSet (seqSet (seqSet (default_book_data, none)
        "title" te "text") "description" de "text") "price" pe "number")
        "available" ae "number") "rating" re0 "rating").1).map Prod.fst =
      ["title", "price", "rating", "available", "description",
       "additional_info"] :=
  keys_seqSet_eq _ _ _ (keys_seqSet_eq _ _ _ (keys_seqSet_eq _ _ _
    (keys_seqSet_eq _ _ _ (keys_seqSet_eq _ _ _ rfl (by decide))
      (by decide)) (by decide)) (by decide)) (by decide)

/-- Counterexample to C1: on an unreachable URL (the fetch raises), the
claim asks for an all-defaults record, but `get_book_data` has no
try/except around `requests.get` / `raise_for_status`, so the
exception propagates and no record at all is returned. -/
theorem C1_counterexample :
    get_book_data (Except.error PyErr.httpError) =
      Except.error PyErr.httpError ∧
    get_book_data (Except.error PyErr.httpError) ≠
      Except.ok default_book_data := by
  refine ⟨rfl, fun h => ?_⟩
  rw [show get_book_data (Except.error PyErr.httpError) =
      Except.error PyErr.httpError from rfl] at h
  exact Except.noConfusion h

/-- C1 amended: a transport or HTTP-status failure propagates out of
`get_book_data` unhandled; whenever the call does return a record, the
record carries exactly the six fields title, price, rating, available,
description, additional_info (structural mismatches only leave
defaults in place, they never drop a field). -/
theorem C1_book_fields (fetch : Except PyErr Node) :
    (∀ e, fetch = .error e → get_book_data fetch = .error e) ∧
    (∀ r, get_book_data fetch = .ok r →
        r.map Prod.fst =
          ["title", "price", "rating", "available", "description",
           "additional_info"]) := by
  constructor
  · rintro e rfl; rfl
  · intro r hr
    cases fetch with
    | error e => exact absurd hr (by simp [get_book_data])
    | ok soup =>
        simp only [get_book_data] at hr
        cases hroot : get_tag soup "article" (ClassFilter.str "product_page")
            with
        | none =>
            simp only [hroot] at hr
            injection hr with hr
            subst hr
            rfl
        | some data_root =>
            simp only [hroot] at hr
            cases hmain : get_tag data_root "div" _main_data_pattern with
            | none =>
                simp only [hmain] at hr
                injection hr with hr
                subst hr
                rfl
            | some main_data =>
                simp only [hmain] at hr
                rcases h5 : seqSet (seqSet (seqSet (seqSet (seqSet
                    (default_book_data, none)
                    "title" (get_tag main_data "h1"
                      ClassFilter.noClass) "text")
                    "description" (get_tag data_root "p"
                      ClassFilter.noClass) "text")
                    "price" (get_tag main_data "p"
                      (ClassFilter.str "price_color")) "number")
                    "available" (get_tag main_data "p"
                      (ClassFilter.str "instock availability"))
                      "number")
                    "rating" (get_tag main_data "p" _rating_pattern)
                      "rating" with ⟨d, err⟩
                have hkeysd : d.map Prod.fst =
                    ["title", "price", "rating", "available",
                     "description", "additional_info"] := by
                  have := keys_field_chain
                    (get_tag main_data "h1" ClassFilter.noClass)
                    (get_tag data_root "p" ClassFilter.noClass)
                    (get_tag main_data "p"
                      (ClassFilter.str "price_color"))
                    (get_tag main_data "p"
                      (ClassFilter.str "instock availability"))
                    (get_tag main_data "p" _rating_pattern)
                  rw [h5] at this
                  exact this
                rw [h5] at hr
                cases err with
                | some e => exact absurd hr (by simp)
                | none =>
                    cases htab : get_tag data_root "table"
                        (ClassFilter.str "table table-striped") with
                    | none =>
                        simp only [htab] at hr
                        injection hr with hr
                        subst hr
                        exact hkeysd
                    | some table =>
                        simp only [htab, get_rows, get_rowsAux_eq] at hr
                        injection hr with hr
                        subst hr
                        have hmem : "additional_info" ∈
                            d.map Prod.fst := by
                          rw [hkeysd]; decide
                        rw [keys_dictSet, if_pos hmem, hkeysd]

/-- Witness for C1: the error case propagates on a failing fetch, and
on a document with no product root the returned record carries exactly
the six keys. -/
theorem C1_book_fields_witness :
    get_book_data (Except.error PyErr.httpError) =
      Except.error PyErr.httpError ∧
    default_book_data.map Prod.fst =
      ["title", "price", "rating", "available", "description",
       "additional_info"] :=
  ⟨(C1_book_fields (Except.error PyErr.httpError)).1 PyErr.httpError rfl,
   (C1_book_fields (Except.ok (Node.textNode "no markup"))).2
      default_book_data rfl⟩

theorem description_after_chain_core (d1 : Dict)
    (hd1 : dictGet d1 "description" = some (.s ""))
    (de pe ae re0 : Option Node) :
    dictGet ((seqSet (seqSet (seqSet (seqSet
        ((d1 : Dict), (none : Option PyErr))
        "description" de "text") "price" pe "number")
        "available" ae "number") "rating" re0 "rating").1) "description" =
      some (.s (match de with
                | some p => pyStrip (innerText p)
                | none => "")) := by
  rw [seqSet_frame _ _ _ _ _ (by decide), seqSet_frame _ _ _ _ _ (by decide),
      seqSet_frame _ _ _ _ _ (by decide)]
  show dictGet ((_set_dict_value d1 "description" de "text").1)
      "description" = _
  rw [set_dict_value_text]
  cases de with
  | none => simpa using hd1
  | some p => simp [dictGet_dictSet_self]

/-- The `description` entry after the five field-extraction calls: the
trimmed text of the located class-less paragraph when there is one,
the default empty string when there is none. -/
theorem description_after_chain (te de pe ae re0 : Option Node) :
    dictGet ((seqSet (seqSet (seqSet (seqSet (seqSet
        (default_book_data, none)
        "title" te "text") "description" de "text") "price" pe "number")
        "available" ae "number") "rating" re0 "rating").1) "description" =
      some (.s (match de with
                | some p => pyStrip (innerText p)
                | none => "")) := by
  show dictGet ((seqSet (seqSet (seqSet (seqSet
      (_set_dict_value default_book_data "title" te "text")
      "description" de "text") "price" pe "number")
      "available" ae "number") "rating" re0 "rating").1) "description" = _
  rw [set_dict_value_text default_book_data "title" te]
  refine description_after_chain_core _ ?_ de pe ae re0
  cases te with
  | none => rfl
  | some e =>
      show dictGet (dictSet default_book_data "title"
        (.s (pyStrip (innerText e)))) "description" = some (.s "")
      rw [dictGet_dictSet_ne _ _ _ _ (by decide)]
      rfl

/-- Modelled from the spec words for `description` — "the first
paragraph under the root container" — with no restriction on the class
attribute; companion to compare against what the code's
`get_tag(data_root, "p")` (bs4 `find("p", class_=None)`) selects. -/
def first_paragraph_spec (root : Node) : Option Node :=
  (descendants root).find? (fun n =>
    match n with
    | .textNode _ => false
    | .elem nm _ _ _ => nm = "p")

/-- The product-main container of the C7 document. -/
def mainDivC7 : Node :=
  .elem "div" (some ["col-sm-6", "product_main"]) none
    [.elem "h1" none none [.textNode "T"],
     .elem "p" (some ["price_color"]) none [.textNode "£51.77"]]

/-- The class-less description paragraph of the C7 document; it is the
second paragraph of the page, after the classed price paragraph. -/
def descPC7 : Node := .elem "p" none none [.textNode " DESC "]

/-- The product root of the C7 document. -/
def articleC7 : Node :=
  .elem "article" (some ["product_page"]) none [mainDivC7, descPC7]

/-- The C7 document. -/
def docC7 : Node := .elem "html" none none [articleC7]

/-- The record `get_book_data` extracts from `docC7`. -/
def recC7 : Dict :=
  [("title", .s "T"), ("price", .f (pyFloatVal "51.77")), ("rating", .i 0),
   ("available", .i 0), ("description", .s "DESC"),
   ("additional_info", .dict [])]

/-- Counterexample to C7: in `docC7` the first paragraph under the
root container is the classed price paragraph (trimmed text
`£51.77`), yet the extracted description is `DESC`, the text of the
later class-less paragraph: the code passes `class_=None` to `find`,
which in bs4 matches only tags lacking a class attribute. -/
theorem C7_counterexample :
    get_tag docC7 "article" (ClassFilter.str "product_page") =
      some articleC7 ∧
    (first_paragraph_spec articleC7).map (fun p => pyStrip (innerText p)) =
      some "£51.77" ∧
    get_book_data (Except.ok docC7) = Except.ok recC7 ∧
    dictGet recC7 "description" = some (.s "DESC") ∧
    (PyVal.s "DESC") ≠ (PyVal.s "£51.77") := by
  refine ⟨rfl, rfl, rfl, rfl, fun h => ?_⟩
  injection h with h
  exact absurd h (by decide)

/-- C7 amended: whenever `get_book_data` locates the root container
and the main sub-container and returns a record, its description is
the trimmed inner text of the first paragraph without a class
attribute under the root container — and the default empty string when
no such paragraph exists. -/
theorem C7_description (soup : Node) (data_root main_data : Node)
    (hroot : get_tag soup "article" (ClassFilter.str "product_page") =
      some data_root)
    (hmain : get_tag data_root "div" _main_data_pattern = some main_data)
    (r : Dict) (hr : get_book_data (Except.ok soup) = Except.ok r) :
    dictGet r "description" =
      some (.s (match get_tag data_root "p" ClassFilter.noClass with
                | some p => pyStrip (innerText p)
                | none => "")) := by
  simp only [get_book_data, hroot, hmain] at hr
  rcases h5 : seqSet (seqSet (seqSet (seqSet (seqSet
      (default_book_data, none)
      "title" (get_tag main_data "h1" ClassFilter.noClass) "text")
      "description" (get_tag data_root "p" ClassFilter.noClass) "text")
      "price" (get_tag main_data "p" (ClassFilter.str "price_color"))
        "number")
      "available" (get_tag main_data "p"
        (ClassFilter.str "instock availability")) "number")
      "rating" (get_tag main_data "p" _rating_pattern) "rating"
      with ⟨d, err⟩
  have hdesc : dictGet d "description" =
      some (.s (match get_tag data_root "p" ClassFilter.noClass with
                | some p => pyStrip (innerText p)
                | none => "")) := by
    have := description_after_chain
      (get_tag main_data "h1" ClassFilter.noClass)
      (get_tag data_root "p" ClassFilter.noClass)
      (get_tag main_data "p" (ClassFilter.str "price_color"))
      (get_tag main_data "p" (ClassFilter.str "instock availability"))
      (get_tag main_data "p" _rating_pattern)
    rw [h5] at this
    exact this
  rw [h5] at hr
  cases err with
  | some e => exact absurd hr (by simp)
  | none =>
      cases htab : get_tag data_root "table"
          (ClassFilter.str "table table-striped") with
      | none =>
          simp only [htab] at hr
          injection hr with hr
          subst hr
          exact hdesc
      | some table =>
          simp only [htab, get_rows, get_rowsAux_eq] at hr
          injection hr with hr
          subst hr
          rw [dictGet_dictSet_ne _ _ _ _ (by decide)]
          exact hdesc

/-- Witness for C7 on the concrete document `docC7`. -/
theorem C7_description_witness :
    dictGet recC7 "description" =
      some (.s (match get_tag articleC7 "p" ClassFilter.noClass with
                | some p => pyStrip (innerText p)
                | none => "")) :=
  C7_description docC7 articleC7 mainDivC7 rfl rfl recC7 rfl

theorem parseItems_append (w : World) (hs : List Node) (acc : List Dict) :
    parseItems w hs acc =
      (acc ++ (parseItems w hs []).1, (parseItems w hs []).2) := by
  induction hs generalizing acc with
  | nil => simp [parseItems]
  | cons heading rest ih =>
      simp only [parseItems]
      split
      · exact ih acc
      · split
        · simp
        · simp
        · split
          · exact ih acc
          · split
            · simp
            · next book heq =>
                rw [ih (acc ++ [book]), ih ([] ++ [book])]
                simp

theorem _parse_page_append (w : World) (n : Nat) (acc : List Dict) :
    _parse_page w n acc =
      (acc ++ (_parse_page w n []).1, (_parse_page w n []).2) := by
  simp only [_parse_page]
  split
  · simp
  · split
    · simp
    · apply parseItems_append

theorem _parse_page_error_skip (w : World) (n : Nat) (acc : List Dict)
    (e : PyErr) (he : w.catalog n = .error e) :
    _parse_page w n acc = (acc, none) := by
  simp [_parse_page, _get_page_soup, he]

theorem foldl_parse_eq_flatten (w : World) (l : List Nat) (acc : List Dict) :
    l.foldl (fun a n => (_parse_page w n a).1) acc =
      acc ++ (l.map (fun n => (_parse_page w n []).1)).flatten := by
  induction l generalizing acc with
  | nil => simp
  | cons n rest ih =>
      simp only [List.foldl_cons, List.map_cons, List.flatten_cons]
      rw [show (_parse_page w n acc).1 = acc ++ (_parse_page w n []).1 from
        by rw [_parse_page_append]]
      rw [ih]
      simp

/-- C5 amended: each page contributes an independent block of records:
`_parse_page` only appends to the shared list, a failed catalog-page
fetch contributes nothing (and raises nothing), and the whole run is
the concatenation of the per-page contributions — the run itself
always completes with whatever was collected.  A failed item, however,
aborts the rest of its own page block (see the counterexample): it
does not degrade into a default record. -/
theorem C5_page_isolation (w : World) (n : Nat) (acc : List Dict) :
    ((_parse_page w n acc).1 = acc ++ (_parse_page w n []).1) ∧
    (∀ e, w.catalog n = .error e → _parse_page w n acc = (acc, none)) ∧
    scrape_books w =
      ((List.range' 1 (_get_pages_count w)).map
        (fun m => (_parse_page w m []).1)).flatten := by
  refine ⟨?_, fun e he => _parse_page_error_skip w n acc e he, ?_⟩
  · rw [_parse_page_append]
  · simp only [scrape_books]
    rw [foldl_parse_eq_flatten]
    simp

/-- The anchor of one catalog item heading. -/
def aTagC5 (href : String) : Node :=
  .elem "a" none (some href) [.textNode "x"]

/-- One catalog item heading. -/
def h3C5 (a : Node) : Node := .elem "h3" none none [a]

/-- The listing container of the C5 catalog page: two items. -/
def olRowC5 : Node :=
  .elem "ol" (some ["row"]) none
    [h3C5 (aTagC5 "u1.html"), h3C5 (aTagC5 "u2.html")]

/-- The pagination indicator of the C5 catalog page. -/
def liCurrentC5 : Node :=
  .elem "li" (some ["current"]) none [.textNode "Page 1 of 1"]

/-- The single catalog page of the C5 world. -/
def catPageC5 : Node := .elem "html" none none [liCurrentC5, olRowC5]

/-- The (reachable) second item page of the C5 world. -/
def bookPageC5 : Node :=
  .elem "html" none none
    [.elem "article" (some ["product_page"]) none
      [.elem "div" (some ["col-sm-6", "product_main"]) none
        [.elem "h1" none none [.textNode "T2"]]]]

/-- The record the second item of the C5 world parses to. -/
def recC5 : Dict :=
  [("title", .s "T2"), ("price", .i 0), ("rating", .i 0),
   ("available", .i 0), ("description", .s ""),
   ("additional_info", .dict [])]

/-- The C5 world: one catalog page listing two items; fetching the
first item fails, fetching the second succeeds. -/
def wC5 : World :=
  ⟨fun n => if n = 1 then .ok catPageC5 else .error .httpError,
   fun u => if u = _root_url ++ "u2.html" then .ok bookPageC5
            else .error .httpError⟩

/-- Counterexample to C5: in `wC5` the failure of the first item does
not degrade into a default record for that item alone — the exception
aborts the loop of the page worker, so the perfectly reachable second item
contributes nothing either, and the run returns an empty collection
instead of one default record plus one parsed record. -/
theorem C5_counterexample :
    _get_pages_count wC5 = 1 ∧
    scrape_books wC5 = [] ∧
    get_book_data (wC5.item (_root_url ++ "u2.html")) = Except.ok recC5 ∧
    ¬ (default_book_data ∈ scrape_books wC5 ∨ recC5 ∈ scrape_books wC5) := by
  refine ⟨rfl, rfl, rfl, ?_⟩
  rw [show scrape_books wC5 = [] from rfl]
  simp

/-- Witness for C5 at a concrete world: a failed catalog-page fetch
leaves the collection unchanged and raises nothing. -/
theorem C5_page_isolation_witness :
    _parse_page wFail 1 [] = ([], none) :=
  (C5_page_isolation wFail 1 []).2.1 PyErr.httpError rfl

theorem rowEntry_some {row : Node} {q : String × PyVal}
    (h : rowEntry row = some q) :
    ∃ key value,
      get_tag row "th" ClassFilter.noClass = some key ∧
      get_tag row "td" ClassFilter.noClass = some value ∧
      q = (innerText key, PyVal.s (pyStrip (innerText value))) := by
  unfold rowEntry at h
  split at h
  · exact absurd h (by simp)
  · next key hth =>
      split at h
      · exact absurd h (by simp)
      · next value htd =>
          injection h with h
          exact ⟨key, value, hth, htd, h.symm⟩

theorem rowEntry_of_cells {row key value : Node}
    (hth : get_tag row "th" ClassFilter.noClass = some key)
    (htd : get_tag row "td" ClassFilter.noClass = some value) :
    rowEntry row = some (innerText key, PyVal.s (pyStrip (innerText value)))
    := by
  unfold rowEntry
  simp [hth, htd]

/-- The row of the C6 table: its header cell carries a class
attribute. -/
def rowC6 : Node :=
  .elem "tr" none none
    [.elem "th" (some ["x"]) none [.textNode "K"],
     .elem "td" none none [.textNode "V"]]

/-- The C6 table: one row with a classed header cell and a plain data
cell. -/
def tableC6 : Node :=
  .elem "table" (some ["table", "table-striped"]) none [rowC6]

/-- Counterexample to C6: `tableC6` has one row with a header cell
(text `K`) and a data cell (trimmed text `V`), so the claim requires
the mapping to carry `K` to `V`; but `get_tag(row, "th")` passes
`class_=None` to bs4 `find`, which only matches class-less tags — the
classed header is not seen, the row is skipped, and the mapping is
empty. -/
theorem C6_counterexample :
    findAll tableC6 "tr" = [rowC6] ∧
    (∃ th ∈ findAll rowC6 "th", innerText th = "K") ∧
    (∃ td ∈ findAll rowC6 "td", pyStrip (innerText td) = "V") ∧
    get_rows tableC6 = ([], none) ∧
    dictGet (get_rows tableC6).1 "K" = none := by
  refine ⟨rfl,
    ⟨.elem "th" (some ["x"]) none [.textNode "K"], ?_, rfl⟩,
    ⟨.elem "td" none none [.textNode "V"], ?_, rfl⟩, rfl, rfl⟩
  · rw [show findAll rowC6 "th" =
        [.elem "th" (some ["x"]) none [.textNode "K"]] from rfl]
    exact List.mem_singleton.mpr rfl
  · rw [show findAll rowC6 "td" =
        [.elem "td" none none [.textNode "V"]] from rfl]
    exact List.mem_singleton.mpr rfl

/-- C6 amended: in the mapping `get_rows` builds, every stored value
comes from a row whose first class-less `th` supplies the (untrimmed)
key and whose first class-less `td` supplies the trimmed value — so a
row with a header but no data cell never inserts its key with a blank
value — and conversely every row with both such cells gets its key
into the mapping. -/
theorem C6_rows_content (parent : Node) :
    (∀ K v, dictGet (get_rows parent).1 K = some v →
      ∃ row ∈ findAll parent "tr", ∃ key value,
        get_tag row "th" ClassFilter.noClass = some key ∧
        get_tag row "td" ClassFilter.noClass = some value ∧
        K = innerText key ∧ v = PyVal.s (pyStrip (innerText value))) ∧
    (∀ row ∈ findAll parent "tr", ∀ key value,
      get_tag row "th" ClassFilter.noClass = some key →
      get_tag row "td" ClassFilter.noClass = some value →
      ∃ v, dictGet (get_rows parent).1 (innerText key) = some v) := by
  have hchar : ∀ K, dictGet (get_rows parent).1 K =
      (match ((findAll parent "tr").filterMap rowEntry).reverse.find?
          (fun p => p.1 == K) with
       | some p => some p.2
       | none => none) := by
    intro K
    rw [get_rows, get_rowsAux_eq]
    show dictGet (((findAll parent "tr").filterMap rowEntry).foldl
        (fun d p => dictSet d p.1 p.2) []) K = _
    rw [dictGet_foldl_dictSet]
    cases hf : ((findAll parent "tr").filterMap rowEntry).reverse.find?
        (fun p => p.1 == K) <;> simp [hf, dictGet]
  constructor
  · intro K v hv
    rw [hchar K] at hv
    cases hf : ((findAll parent "tr").filterMap rowEntry).reverse.find?
        (fun p => p.1 == K) with
    | none => rw [hf] at hv; exact absurd hv (by simp)
    | some q =>
        rw [hf] at hv
        have hq2 : q.2 = v := by simpa using hv
        have hqK : q.1 = K := by
          have := List.find?_some hf
          simpa using this
        have hqmem : q ∈ (findAll parent "tr").filterMap rowEntry :=
          List.mem_reverse.mp (List.mem_of_find?_eq_some hf)
        obtain ⟨row, hrow, hre⟩ := List.mem_filterMap.mp hqmem
        obtain ⟨key, value, hth, htd, hq⟩ := rowEntry_some hre
        refine ⟨row, hrow, key, value, hth, htd, ?_, ?_⟩
        · rw [← hqK, hq]
        · rw [← hq2, hq]
  · intro row hrow key value hth htd
    have hre := rowEntry_of_cells hth htd
    have hmem : (innerText key, PyVal.s (pyStrip (innerText value))) ∈
        ((findAll parent "tr").filterMap rowEntry).reverse :=
      List.mem_reverse.mpr (List.mem_filterMap.mpr ⟨row, hrow, hre⟩)
    have hsome : (((findAll parent "tr").filterMap rowEntry).reverse.find?
        (fun p => p.1 == innerText key)).isSome := by
      rw [List.find?_isSome]
      exact ⟨_, hmem, by simp⟩
    obtain ⟨q, hq⟩ := Option.isSome_iff_exists.mp hsome
    refine ⟨q.2, ?_⟩
    rw [hchar (innerText key), hq]

/-- A well-formed row of the C6 witness table. -/
def rowGoodC6 : Node :=
  .elem "tr" none none
    [.elem "th" none none [.textNode "A"],
     .elem "td" none none [.textNode " a "]]

/-- A row with a header cell but no data cell. -/
def rowNoTdC6 : Node :=
  .elem "tr" none none [.elem "th" none none [.textNode "B"]]

/-- A row with a header cell and a childless data cell: the found `td`
is still truthy in Python, so a blank value is inserted. -/
def rowEmptyTdC6 : Node :=
  .elem "tr" none none
    [.elem "th" none none [.textNode "C"], .elem "td" none none []]

/-- The C6 witness table. -/
def tableC6W : Node :=
  .elem "table" (some ["table", "table-striped"]) none
    [rowGoodC6, rowNoTdC6, rowEmptyTdC6]

/-- Witness for C6: the key of the well-formed row is present (with
the trimmed data-cell text), the key of the data-less row is absent
rather than blank, and the key of the childless-data-cell row is
present with the blank value. -/
theorem C6_rows_content_witness :
    (∃ v, dictGet (get_rows tableC6W).1 "A" = some v) ∧
    (∃ row ∈ findAll tableC6W "tr", ∃ key value,
        get_tag row "th" ClassFilter.noClass = some key ∧
        get_tag row "td" ClassFilter.noClass = some value ∧
        "A" = innerText key ∧
        PyVal.s "a" = PyVal.s (pyStrip (innerText value))) ∧
    dictGet (get_rows tableC6W).1 "B" = none ∧
    dictGet (get_rows tableC6W).1 "C" = some (.s "") := by
  refine ⟨?_, ?_, rfl, rfl⟩
  · exact (C6_rows_content tableC6W).2 rowGoodC6
      (by rw [show findAll tableC6W "tr" =
            [rowGoodC6, rowNoTdC6, rowEmptyTdC6] from rfl]
          exact List.mem_cons_self _ _)
      (.elem "th" none none [.textNode "A"])
      (.elem "td" none none [.textNode " a "]) rfl rfl
  · exact (C6_rows_content tableC6W).1 "A" (.s "a") rfl
